import Mathlib

/-
Shallow embedding of the localFileServer upload/serve/delete pipeline
(main server source file: constants, isImageFile, convertToWebP,
saveOriginalFile, handleUpload, handleServeFile, handleDelete).

Modelling conventions:
- Byte contents are lists of naturals (`Bytes`); the filesystem is an
  association list from path strings to contents (`FS`).
- The multipart stream is seekable in Go (both the in-memory and the
  on-disk form file support Seek), and both convertToWebP and
  saveOriginalFile rewind it before reading; hence each consumer is
  modelled as reading the full request bytes from the start.
- Image decoding/encoding and filesystem fault behaviour are abstracted
  into an `Env` record: `decode ext bytes` stands for the decoder picked
  by the switch on the extension (jpeg.Decode / png.Decode / gif.Decode),
  `encodeWebP` for webp.Encode, `createOk` for os.Create succeeding at a
  path, `copyOk` for io.Copy succeeding, `statOk` for dst.Stat succeeding.
- uuid.New().String() is passed in as the `id` argument.
- The `%.2f MB` float segment of the per-file size error message is not
  modelled (floating point); the `%d bytes` decimal and the limit are.
-/

namespace LFS

/-- Server constants from the source file's const block. -/
def AuthToken : String := "secrettoken"

def UploadDir : String := "./uploads"

def Port : String := ":4000"

def BaseURL : String := "http://localhost" ++ Port

def MaxFileSize : Nat := 50 <<< 20

def MaxMemory : Nat := 32 <<< 20

def WebPQuality : Nat := 80

def ConvertToWebP : Bool := true

abbrev Bytes := List Nat

abbrev FS := List (String × Bytes)

/-- Write (os.Create + content): replaces any existing entry at the path. -/
def fsWrite (fs : FS) (p : String) (v : Bytes) : FS :=
  (p, v) :: fs.filter (fun e => !(e.1 == p))

/-- os.Remove: drop the entry at the path. -/
def fsRemove (fs : FS) (p : String) : FS :=
  fs.filter (fun e => !(e.1 == p))

/-- os.Stat / reading a file: look the path up. -/
def fsGet (fs : FS) (p : String) : Option Bytes :=
  (fs.find? (fun e => e.1 == p)).map (fun e => e.2)

/-- filepath.Join(UploadDir, filename) (Join cleans the leading dot-slash). -/
def uploadPath (fn : String) : String := "uploads/" ++ fn

/-- Checks that the needle list is a leading run of the haystack list. -/
def leadsWith : List Char → List Char → Bool
  | [], _ => true
  | _ :: _, [] => false
  | a :: as, b :: bs => (a == b) && leadsWith as bs

/-- strings.Contains: the needle occurs contiguously in the haystack. -/
def containsSub : List Char → List Char → Bool
  | [], needle => needle.isEmpty
  | c :: rest, needle => leadsWith needle (c :: rest) || containsSub rest needle

/-- Backward scan of filepath.Ext: walk from the end of the name, stop at a
path separator; on a dot return the suffix from the dot on. The input is the
reversed character list; the accumulator holds the characters already passed,
in original order. -/
def extScan : List Char → List Char → List Char
  | [], _ => []
  | c :: rest, acc =>
    if c = '/' then []
    else if c = '.' then c :: acc
    else extScan rest (c :: acc)

/-- filepath.Ext: the suffix starting at the final dot of the final path
element; empty when there is no dot. -/
def filepathExt (s : String) : String := String.mk (extScan s.data.reverse [])

/-- strings.ToLower, modelled character-wise (the extensions the server
compares against are ASCII, where Char.toLower agrees with Go's ToLower). -/
def strToLower (s : String) : String := String.mk (s.data.map Char.toLower)

/-- strings.HasPrefix, at the character level. -/
def strStarts (s pre : String) : Bool := leadsWith pre.data s.data

/-- Dropping the first n characters of a string (the TrimPrefix result,
once the prefix is known to be present). -/
def strDrop (s : String) (n : Nat) : String := String.mk (s.data.drop n)

/-- isImageFile from the source: switch on the four raster extensions. -/
def isImageFile (ext : String) : Bool :=
  ext == ".jpg" || ext == ".jpeg" || ext == ".png" || ext == ".gif"

/-- The classifier as handleUpload uses it: the original extension is
lower-cased (strings.ToLower(filepath.Ext(...))) before the switch. -/
def classifyExt (ext : String) : Bool := isImageFile (strToLower ext)

/-- Abstraction of the decoders, the webp encoder and filesystem faults. -/
structure Env where
  decode : String → Bytes → Except String Bytes
  encodeWebP : Bytes → Except String Bytes
  createOk : String → Bool
  copyOk : Bool
  statOk : String → Bool

/-- convertToWebP from the source: rewind, decode by extension (default
branch: unsupported format), os.Create the destination, webp.Encode (on
encode failure os.Remove the destination), then Stat for the byte count. -/
def convertToWebP (env : Env) (fs : FS) (src : Bytes) (outputPath : String)
    (originalExt : String) : FS × Except String Nat :=
  if originalExt = ".jpg" ∨ originalExt = ".jpeg" ∨ originalExt = ".png" ∨
      originalExt = ".gif" then
    match env.decode originalExt src with
    | Except.error e => (fs, Except.error ("failed to decode image: " ++ e))
    | Except.ok img =>
      if env.createOk outputPath then
        let fs1 := fsWrite fs outputPath []
        match env.encodeWebP img with
        | Except.error e =>
          (fsRemove fs1 outputPath, Except.error ("failed to encode WebP: " ++ e))
        | Except.ok out =>
          let fs2 := fsWrite fs1 outputPath out
          if env.statOk outputPath then (fs2, Except.ok out.length)
          else (fs2, Except.error "failed to get file info")
      else (fs, Except.error "failed to create output file")
  else (fs, Except.error ("unsupported format: " ++ originalExt))

/-- saveOriginalFile from the source: rewind, os.Create (0 on failure),
io.Copy (on failure os.Remove the destination and return 0), else the
number of bytes written. -/
def saveOriginalFile (env : Env) (fs : FS) (src : Bytes) (outputPath : String) :
    FS × Nat :=
  if env.createOk outputPath then
    let fs1 := fsWrite fs outputPath []
    if env.copyOk then (fsWrite fs1 outputPath src, src.length)
    else (fsRemove fs1 outputPath, 0)
  else (fs, 0)

/-- One upload request as handleUpload sees it after routing: the HTTP
method, the total request body size (checked by MaxBytesReader via
ParseMultipartForm), whether the multipart form parses, whether the form
has a "file" field, the client-supplied file name, and the file bytes
(multipart.FileHeader.Size is the length of these bytes). -/
structure UploadRequest where
  method : String
  bodySize : Nat
  formValid : Bool
  hasFile : Bool
  origFilename : String
  content : Bytes
deriving DecidableEq

/-- UploadResponse from the source (success JSON payload). -/
structure UploadResponse where
  url : String
  filename : String
  originalExt : String
  size : Nat
  converted : Bool
  message : String
deriving DecidableEq

/-- Outcome of handleUpload: an ErrorResponse with its HTTP status, or the
201 Created success payload. -/
inductive UploadResult
  | err (status : Nat) (error message : String)
  | created (resp : UploadResponse)
deriving DecidableEq

/-- maxRequestSize from handleUpload: MaxFileSize plus 10 MB of multipart
form overhead, enforced on the whole request body by MaxBytesReader. -/
def maxRequestSize : Nat := MaxFileSize + (10 <<< 20)

/-- Client-facing message of the transport-level (request body) size check. -/
def tooLargeTransportMsg : String :=
  "Request size exceeds limit. Max file size: " ++
    toString (MaxFileSize / (1 <<< 20)) ++ " MB"

/-- Tail of the per-file size-check message, after the actual byte count. -/
def tooLargeFileMsgTail : String :=
  " bytes) exceeds " ++ toString (MaxFileSize / (1 <<< 20)) ++ " MB limit"

/-- Client-facing message of the per-file size check (carries the actual
size in bytes and the configured limit). -/
def tooLargeFileMsg (size : Nat) : String :=
  "File size (" ++ toString size ++ tooLargeFileMsgTail

/-- The writer-selection core of handleUpload (lines choosing between
convertToWebP with fallback and saveOriginalFile): returns the filesystem
after the writes, the stored filename, the converted flag, and finalSize. -/
def ingestCore (env : Env) (fs : FS) (id : String) (originalExt : String)
    (content : Bytes) : FS × String × Bool × Nat :=
  if ConvertToWebP && isImageFile originalExt then
    let webpFilename := id ++ ".webp"
    let conv := convertToWebP env fs content (uploadPath webpFilename) originalExt
    match conv.2 with
    | Except.ok convertedSize => (conv.1, webpFilename, true, convertedSize)
    | Except.error _ =>
      let filename := id ++ originalExt
      let saved := saveOriginalFile env conv.1 content (uploadPath filename)
      (saved.1, filename, false, saved.2)
  else
    let filename := id ++ originalExt
    let saved := saveOriginalFile env fs content (uploadPath filename)
    (saved.1, filename, false, saved.2)

/-- handleUpload from the source: method check, MaxBytesReader ceiling on
the body (surfaced through the ParseMultipartForm error), form validity,
presence of the "file" field, the per-file size check against handler.Size,
then writer selection; a zero finalSize is reported as "Save failed" (500),
otherwise the 201 response is built. -/
def handleUpload (env : Env) (fs : FS) (id : String) (r : UploadRequest) :
    FS × UploadResult :=
  if r.method ≠ "POST" then
    (fs, UploadResult.err 405 "Method not allowed" "Use POST method")
  else if r.bodySize > maxRequestSize then
    (fs, UploadResult.err 413 "File too large" tooLargeTransportMsg)
  else if r.formValid = false then
    (fs, UploadResult.err 400 "Invalid form" "Form data invalid")
  else if r.hasFile = false then
    (fs, UploadResult.err 400 "No file provided" "No file found in form data")
  else if r.content.length > MaxFileSize then
    (fs, UploadResult.err 413 "File too large" (tooLargeFileMsg r.content.length))
  else
    let originalExt := strToLower (filepathExt r.origFilename)
    let res := ingestCore env fs id originalExt r.content
    if res.2.2.2 = 0 then
      (res.1, UploadResult.err 500 "Save failed" "Could not save file")
    else
      (res.1, UploadResult.created {
        url := BaseURL ++ "/uploads/" ++ res.2.1
        filename := res.2.1
        originalExt := originalExt
        size := res.2.2.2
        converted := res.2.2.1
        message := "File uploaded successfully" })

/-- Filesystem operations a handler performs, for stating that the invalid
-filename paths touch the filesystem not at all. -/
inductive FsOp
  | stat (p : String)
  | fileRead (p : String)
  | fileRemove (p : String)
deriving DecidableEq

/-- Outcome of the serve and delete handlers. -/
inductive HttpRes
  | err (status : Nat) (error message : String)
  | served (content : Bytes)
  | deleted (filename : String) (size : Nat)
deriving DecidableEq

/-- The filename-rejection test shared by handleServeFile and handleDelete:
empty, containing "..", or containing "/". -/
def invalidName (fn : String) : Bool :=
  fn == "" || containsSub fn.data ['.', '.'] || containsSub fn.data ['/']

/-- Filename extraction in handleServeFile: TrimPrefix under a HasPrefix
test for "/uploads/" then "/get/", else the invalid-path error. -/
def serveName (urlPath : String) : Option String :=
  if strStarts urlPath "/uploads/" then some (strDrop urlPath "/uploads/".data.length)
  else if strStarts urlPath "/get/" then some (strDrop urlPath "/get/".data.length)
  else none

/-- Filename extraction in handleDelete: strings.TrimPrefix, which returns
the input unchanged when the prefix is absent. -/
def deleteName (urlPath : String) : String :=
  if strStarts urlPath "/delete/" then strDrop urlPath "/delete/".data.length
  else urlPath

/-- handleServeFile from the source, with the filesystem operations it
performs recorded alongside the response. -/
def handleServeFile (fs : FS) (method urlPath : String) : HttpRes × List FsOp :=
  if method ≠ "GET" then
    (HttpRes.err 405 "Method not allowed" "Use GET method", [])
  else
    match serveName urlPath with
    | none => (HttpRes.err 400 "Invalid path" "Invalid file path", [])
    | some filename =>
      if invalidName filename then
        (HttpRes.err 400 "Invalid filename" "Filename contains invalid characters", [])
      else
        let filePath := uploadPath filename
        match fsGet fs filePath with
        | none =>
          (HttpRes.err 404 "File not found" "File does not exist", [FsOp.stat filePath])
        | some content =>
          (HttpRes.served content, [FsOp.stat filePath, FsOp.fileRead filePath])

/-- handleDelete from the source, with the filesystem operations recorded;
also returns the filesystem after any removal. -/
def handleDelete (fs : FS) (method urlPath : String) :
    FS × HttpRes × List FsOp :=
  if method ≠ "DELETE" then
    (fs, HttpRes.err 405 "Method not allowed" "Use DELETE method", [])
  else
    let filename := deleteName urlPath
    if invalidName filename then
      (fs, HttpRes.err 400 "Invalid filename" "Filename contains invalid characters", [])
    else
      let filePath := uploadPath filename
      match fsGet fs filePath with
      | none =>
        (fs, HttpRes.err 404 "File not found" "File does not exist", [FsOp.stat filePath])
      | some content =>
        (fsRemove fs filePath, HttpRes.deleted filename content.length,
          [FsOp.stat filePath, FsOp.fileRemove filePath])

/-- An environment in which every filesystem operation succeeds, the webp
encoder succeeds, and—matching the standard library decoders—decoding an
empty input fails. -/
def envAllOk : Env where
  decode := fun _ bytes =>
    if bytes.isEmpty then Except.error "unexpected EOF" else Except.ok bytes
  encodeWebP := fun img => Except.ok img
  createOk := fun _ => true
  copyOk := true
  statOk := fun _ => true

/-- The early handleUpload guards all passing: POST, body within the
transport ceiling, valid form, file present, file size within the limit. -/
def passesEarlyChecks (r : UploadRequest) : Prop :=
  r.method = "POST" ∧ r.bodySize ≤ maxRequestSize ∧ r.formValid = true ∧
    r.hasFile = true ∧ r.content.length ≤ MaxFileSize

instance (r : UploadRequest) : Decidable (passesEarlyChecks r) := by
  unfold passesEarlyChecks; infer_instance

/- ### Helper lemmas -/

theorem strData_append (s t : String) : (s ++ t).data = s.data ++ t.data := by
  cases s; cases t; rfl

theorem fsGet_fsWrite_self (fs : FS) (p : String) (v : Bytes) :
    fsGet (fsWrite fs p v) p = some v := by
  simp [fsGet, fsWrite, List.find?_cons_of_pos]

theorem fsGet_fsRemove_self (fs : FS) (p : String) :
    fsGet (fsRemove fs p) p = none := by
  induction fs with
  | nil => rfl
  | cons e t ih =>
    by_cases h : e.1 == p
    · simp only [fsRemove, List.filter, h, Bool.not_true] at ih ⊢
      exact ih
    · simp only [fsRemove, List.filter, h, Bool.not_false] at ih ⊢
      simp only [fsGet, List.find?, h] at ih ⊢
      exact ih

theorem leadsWith_append (l t : List Char) : leadsWith l (l ++ t) = true := by
  induction l with
  | nil => rfl
  | cons c cs ih => simp [leadsWith, ih]

theorem containsSub_nil_needle (h : List Char) : containsSub h [] = true := by
  cases h <;> rfl

theorem containsSub_here (b c : List Char) : containsSub (b ++ c) b = true := by
  cases b with
  | nil => simpa using containsSub_nil_needle c
  | cons x xs =>
    simp only [List.cons_append, containsSub, Bool.or_eq_true]
    exact Or.inl (by simpa using leadsWith_append (x :: xs) c)

theorem containsSub_append_left (h t n : List Char)
    (hc : containsSub t n = true) : containsSub (h ++ t) n = true := by
  induction h with
  | nil => exact hc
  | cons c cs ih => simp [containsSub, List.cons_append, ih]

theorem isImageFile_iff (e : String) :
    isImageFile e = true ↔
      (e = ".jpg" ∨ e = ".jpeg" ∨ e = ".png" ∨ e = ".gif") := by
  simp [isImageFile, Bool.or_eq_true, or_assoc]

theorem saveOriginalFile_ok (env : Env) (fs : FS) (src : Bytes) (p : String)
    (hc : env.createOk p = true) (hk : env.copyOk = true) :
    saveOriginalFile env fs src p = (fsWrite (fsWrite fs p []) p src, src.length) := by
  simp [saveOriginalFile, hc, hk]

/-- Under the early guards, handleUpload is the writer-selection core
followed by the zero-size check. -/
theorem handleUpload_after_checks (env : Env) (fs : FS) (id : String)
    (r : UploadRequest) (h : passesEarlyChecks r) :
    handleUpload env fs id r =
      (let originalExt := strToLower (filepathExt r.origFilename)
       let res := ingestCore env fs id originalExt r.content
       if res.2.2.2 = 0 then
         (res.1, UploadResult.err 500 "Save failed" "Could not save file")
       else
         (res.1, UploadResult.created {
           url := BaseURL ++ "/uploads/" ++ res.2.1
           filename := res.2.1
           originalExt := originalExt
           size := res.2.2.2
           converted := res.2.2.1
           message := "File uploaded successfully" })) := by
  obtain ⟨h1, h2, h3, h4, h5⟩ := h
  simp only [handleUpload, h1, h3, h4, ne_eq, not_true_eq_false, if_false,
    Bool.true_eq_false, Nat.not_lt.mpr h2, Nat.not_lt.mpr h5, if_neg,
    not_false_eq_true]

/-- The fallback / opaque write as it appears inside ingestCore when the
create and copy both succeed. -/
theorem ingestCore_save (env : Env) (fs : FS) (id ext : String) (content : Bytes)
    (hc : env.createOk (uploadPath (id ++ ext)) = true)
    (hk : env.copyOk = true) :
    saveOriginalFile env fs content (uploadPath (id ++ ext)) =
      (fsWrite (fsWrite fs (uploadPath (id ++ ext)) []) (uploadPath (id ++ ext)) content,
        content.length) :=
  saveOriginalFile_ok env fs content (uploadPath (id ++ ext)) hc hk

/- ### Concrete inputs used by witnesses and counterexamples -/

/-- A 0-byte upload with extension .png. -/
def emptyPngReq : UploadRequest :=
  { method := "POST", bodySize := 0, formValid := true, hasFile := true,
    origFilename := "empty.png", content := [] }

/-- A 0-byte opaque upload. -/
def reqEmptyTxt : UploadRequest :=
  { method := "POST", bodySize := 0, formValid := true, hasFile := true,
    origFilename := "notes.txt", content := [] }

/-- An upload one byte over the per-file ceiling. -/
def reqOversized : UploadRequest :=
  { method := "POST", bodySize := 0, formValid := true, hasFile := true,
    origFilename := "big.bin", content := List.replicate (MaxFileSize + 1) 0 }

/-- A nonempty convertible upload whose payload the decoder rejects. -/
def reqCorruptPng : UploadRequest :=
  { method := "POST", bodySize := 3, formValid := true, hasFile := true,
    origFilename := "photo.png", content := [7, 8, 9] }

/-- A nonempty upload whose original extension is already .webp (opaque,
since .webp is not in the convertible set). -/
def reqWebpFile : UploadRequest :=
  { method := "POST", bodySize := 3, formValid := true, hasFile := true,
    origFilename := "x.webp", content := [1, 2, 3] }

/-- An environment whose decoder rejects every payload (e.g. corrupted
image data); everything else succeeds. -/
def envDecodeFail : Env where
  decode := fun _ _ => Except.error "bad data"
  encodeWebP := fun img => Except.ok img
  createOk := fun _ => true
  copyOk := true
  statOk := fun _ => true

/-- An environment where decoding and file creation succeed but the webp
encoder and io.Copy fail. -/
def envEncodeFail : Env where
  decode := fun _ bytes => Except.ok bytes
  encodeWebP := fun _ => Except.error "webp boom"
  createOk := fun _ => true
  copyOk := false
  statOk := fun _ => true

/- ### Claim theorems -/

/-- C5 (confirmed): for every well-formed POST upload whose file size
exceeds the configured ceiling, handleUpload answers 413 "File too large"
(whether the violation is caught by the transport-level body check or the
per-file check) and the filesystem is untouched: no destination file is
created and none is left on disk. -/
theorem C5_oversized (env : Env) (fs : FS) (id : String) (r : UploadRequest)
    (hm : r.method = "POST") (hf : r.formValid = true) (hh : r.hasFile = true)
    (hsz : r.content.length > MaxFileSize) :
    ∃ m, handleUpload env fs id r = (fs, UploadResult.err 413 "File too large" m) := by
  by_cases hb : r.bodySize > maxRequestSize
  · exact ⟨tooLargeTransportMsg, by simp [handleUpload, hm, hb]⟩
  · exact ⟨tooLargeFileMsg r.content.length,
      by simp [handleUpload, hm, hb, hf, hh, hsz]⟩

/-- Witness for C5 at a concrete request one byte over the ceiling. -/
theorem C5_oversized_witness :
    reqOversized.method = "POST" ∧
    reqOversized.content.length > MaxFileSize ∧
    ∃ m, handleUpload envAllOk [] "id5" reqOversized =
      ([], UploadResult.err 413 "File too large" m) :=
  ⟨rfl, by simp [reqOversized, List.length_replicate],
    C5_oversized envAllOk [] "id5" reqOversized rfl rfl rfl
      (by simp [reqOversized, List.length_replicate])⟩

/-- C6 (confirmed): the format classifier (lower-casing followed by the
isImageFile switch) is a total pure function: it answers Convertible
(true) exactly when the lower-cased extension is one of the four fixed
raster extensions .jpg/.jpeg/.png/.gif, case-insensitively, and Opaque
(false) on everything else, including the empty extension; it has no
failure mode. -/
theorem C6_classifier_total :
    (∀ ext : String, classifyExt ext = true ↔
      (strToLower ext = ".jpg" ∨ strToLower ext = ".jpeg" ∨
        strToLower ext = ".png" ∨ strToLower ext = ".gif")) ∧
    classifyExt "" = false ∧ classifyExt ".PNG" = true ∧
    classifyExt ".png" = true ∧ classifyExt ".JpEg" = true ∧
    classifyExt ".GIF" = true ∧ classifyExt ".webp" = false ∧
    classifyExt ".txt" = false :=
  ⟨fun ext => isImageFile_iff (strToLower ext), by decide, by decide,
    by decide, by decide, by decide, by decide, by decide⟩

/-- C8, claim as stated is false: the transport-level check uses the
ceiling maxRequestSize = MaxFileSize + 10 MB, not the configured
MaxFileSize itself, and its client-facing message does not carry the
actual request size (shown at the concrete actual size
maxRequestSize + 1 = 62914561 bytes, whose decimal rendering does not
occur in the message). -/
theorem C8_cex : maxRequestSize ≠ MaxFileSize ∧
    containsSub tooLargeTransportMsg.data (toString (maxRequestSize + 1)).data = false := by
  decide

/-- C8 (corrected): both ceilings derive from the same configured constant
MaxFileSize — the transport-level check adds a fixed 10 MB multipart
overhead — and the per-file violation message carries both the actual
size in bytes and the configured limit, while the transport-level message
carries only the limit; neither check silently truncates. -/
theorem C8_limits_and_messages :
    maxRequestSize = MaxFileSize + (10 <<< 20) ∧
    (∀ n : Nat,
      containsSub (tooLargeFileMsg n).data (toString n).data = true ∧
      containsSub (tooLargeFileMsg n).data
        (toString (MaxFileSize / (1 <<< 20))).data = true) ∧
    containsSub tooLargeTransportMsg.data
      (toString (MaxFileSize / (1 <<< 20))).data = true := by
  refine ⟨rfl, fun n => ⟨?_, ?_⟩, by decide⟩
  · rw [tooLargeFileMsg, strData_append, strData_append, List.append_assoc]
    exact containsSub_append_left _ _ _ (containsSub_here _ _)
  · rw [tooLargeFileMsg, strData_append, strData_append, List.append_assoc]
    refine containsSub_append_left _ _ _ (containsSub_append_left _ _ _ ?_)
    decide

/-- C9 (confirmed): on a GET whose extracted serve filename, or a DELETE
whose extracted delete filename, is empty, contains "..", or contains
"/", the handler answers 400 "Invalid filename" and performs no
filesystem operation at all (no stat, read, or remove), so such a request
addresses no file inside or outside the upload directory. -/
theorem C9_invalid_filename (fs : FS) (p q fn : String)
    (h1 : serveName p = some fn) (h2 : invalidName fn = true)
    (h3 : invalidName (deleteName q) = true) :
    handleServeFile fs "GET" p =
      (HttpRes.err 400 "Invalid filename" "Filename contains invalid characters", []) ∧
    handleDelete fs "DELETE" q =
      (fs, HttpRes.err 400 "Invalid filename" "Filename contains invalid characters", []) := by
  constructor
  · simp [handleServeFile, h1, h2]
  · simp [handleDelete, h3]

/-- Witness for C9: a traversal attempt on the serve route and a
slash-bearing name on the delete route are both rejected with no
filesystem access. -/
theorem C9_invalid_filename_witness :
    serveName "/uploads/../secret" = some "../secret" ∧
    invalidName "../secret" = true ∧
    invalidName (deleteName "/delete/a/b") = true ∧
    (handleServeFile [("uploads/x.webp", [1])] "GET" "/uploads/../secret" =
      (HttpRes.err 400 "Invalid filename" "Filename contains invalid characters", []) ∧
     handleDelete [("uploads/x.webp", [1])] "DELETE" "/delete/a/b" =
      ([("uploads/x.webp", [1])],
        HttpRes.err 400 "Invalid filename" "Filename contains invalid characters", [])) :=
  ⟨by decide, by decide, by decide,
    C9_invalid_filename [("uploads/x.webp", [1])] "/uploads/../secret"
      "/delete/a/b" "../secret" (by decide) (by decide) (by decide)⟩

/-- Shape of ingestCore when the extension is convertible, the transcode
attempt fails, and the fallback create and copy succeed: the original
bytes land verbatim at objectId + originalExtension, converted is false,
and the reported size is the input length. -/
theorem ingestCore_fallback (env : Env) (fs : FS) (id ext : String)
    (content : Bytes) (e : String) (himg : isImageFile ext = true)
    (hfail : (convertToWebP env fs content (uploadPath (id ++ ".webp")) ext).2 =
      Except.error e)
    (hc : env.createOk (uploadPath (id ++ ext)) = true)
    (hk : env.copyOk = true) :
    ingestCore env fs id ext content =
      (fsWrite (fsWrite (convertToWebP env fs content (uploadPath (id ++ ".webp")) ext).1
          (uploadPath (id ++ ext)) []) (uploadPath (id ++ ext)) content,
        id ++ ext, false, content.length) := by
  unfold ingestCore
  simp only [ConvertToWebP, himg, Bool.and_self, if_pos, hfail]
  rw [saveOriginalFile_ok _ _ _ _ hc hk]

/-- Shape of ingestCore when the extension is opaque and the create and
copy succeed: the bytes land verbatim at objectId + originalExtension. -/
theorem ingestCore_verbatim (env : Env) (fs : FS) (id ext : String)
    (content : Bytes) (hop : isImageFile ext = false)
    (hc : env.createOk (uploadPath (id ++ ext)) = true)
    (hk : env.copyOk = true) :
    ingestCore env fs id ext content =
      (fsWrite (fsWrite fs (uploadPath (id ++ ext)) []) (uploadPath (id ++ ext)) content,
        id ++ ext, false, content.length) := by
  unfold ingestCore
  simp only [ConvertToWebP, hop, Bool.and_false, Bool.true_and, if_neg,
    Bool.false_eq_true, not_false_eq_true]
  rw [saveOriginalFile_ok _ _ _ _ hc hk]

/-- C2 (confirmed): whenever the chosen writer reports zero bytes written
(which is also how both writers report storage errors), the whole ingest
fails with the 500 "Save failed" persist error and no success response
carrying a stored-object description is produced. -/
theorem C2_zero_write_fails (env : Env) (fs : FS) (id : String)
    (r : UploadRequest) (hp : passesEarlyChecks r)
    (hz : (ingestCore env fs id (strToLower (filepathExt r.origFilename))
      r.content).2.2.2 = 0) :
    (handleUpload env fs id r).2 =
      UploadResult.err 500 "Save failed" "Could not save file" ∧
    ∀ resp, (handleUpload env fs id r).2 ≠ UploadResult.created resp := by
  rw [handleUpload_after_checks env fs id r hp]
  simp [hz]

/-- Witness for C2: a zero-byte opaque upload in a fault-free environment:
the writer reports zero bytes and the ingest fails with 500. -/
theorem C2_zero_write_fails_witness :
    passesEarlyChecks reqEmptyTxt ∧
    (ingestCore envAllOk [] "id2"
      (strToLower (filepathExt reqEmptyTxt.origFilename)) reqEmptyTxt.content).2.2.2 = 0 ∧
    (handleUpload envAllOk [] "id2" reqEmptyTxt).2 =
      UploadResult.err 500 "Save failed" "Could not save file" :=
  ⟨by decide, by decide,
    (C2_zero_write_fails envAllOk [] "id2" reqEmptyTxt (by decide) (by decide)).1⟩

/-- C1, claim as stated is false: at the concrete 0-byte upload with
extension .png, the transcode attempt fails (decode error), the fallback
writes the original bytes verbatim, yet ingest does NOT succeed: because
the fallback wrote zero bytes, handleUpload answers 500 "Save failed"
instead of a wasConverted = false success. -/
theorem C1_cex :
    (convertToWebP envAllOk [] [] (uploadPath "u1.webp") ".png").2 =
      Except.error "failed to decode image: unexpected EOF" ∧
    (handleUpload envAllOk [] "u1" emptyPngReq).2 =
      UploadResult.err 500 "Save failed" "Could not save file" :=
  ⟨rfl, by decide⟩

/-- C1 (corrected): for every upload that passes the early checks, whose
lower-cased extension is convertible, and whose transcode attempt fails
for any reason, ingest falls back to the verbatim write at
objectId + originalExtension and — provided that fallback write reports a
positive byte count, i.e. the create and copy succeed and the input is
nonempty — succeeds with wasConverted = false, size = input length, the
original bytes stored verbatim, and no conversion failure surfaced. -/
theorem C1_transcode_fallback (env : Env) (fs : FS) (id : String)
    (r : UploadRequest) (e : String) (hp : passesEarlyChecks r)
    (himg : isImageFile (strToLower (filepathExt r.origFilename)) = true)
    (hfail : (convertToWebP env fs r.content (uploadPath (id ++ ".webp"))
      (strToLower (filepathExt r.origFilename))).2 = Except.error e)
    (hc : env.createOk (uploadPath (id ++ strToLower (filepathExt r.origFilename))) = true)
    (hk : env.copyOk = true)
    (hne : r.content ≠ []) :
    (handleUpload env fs id r).2 = UploadResult.created {
        url := BaseURL ++ "/uploads/" ++ (id ++ strToLower (filepathExt r.origFilename))
        filename := id ++ strToLower (filepathExt r.origFilename)
        originalExt := strToLower (filepathExt r.origFilename)
        size := r.content.length
        converted := false
        message := "File uploaded successfully" } ∧
    fsGet (handleUpload env fs id r).1
      (uploadPath (id ++ strToLower (filepathExt r.origFilename))) = some r.content := by
  have hlen : r.content.length ≠ 0 := fun h => hne (List.length_eq_zero.mp h)
  rw [handleUpload_after_checks env fs id r hp]
  simp only [ingestCore_fallback env fs id (strToLower (filepathExt r.origFilename))
    r.content e himg hfail hc hk, hlen, if_neg, fsGet_fsWrite_self]
  exact ⟨rfl, fsGet_fsWrite_self _ _ _⟩

/-- Witness for C1 at a nonempty .png upload whose payload the decoder
rejects, in an otherwise fault-free environment. -/
theorem C1_transcode_fallback_witness :
    passesEarlyChecks reqCorruptPng ∧
    isImageFile (strToLower (filepathExt reqCorruptPng.origFilename)) = true ∧
    ((handleUpload envDecodeFail [] "w1" reqCorruptPng).2 = UploadResult.created {
        url := BaseURL ++ "/uploads/" ++ ("w1" ++ strToLower (filepathExt reqCorruptPng.origFilename))
        filename := "w1" ++ strToLower (filepathExt reqCorruptPng.origFilename)
        originalExt := strToLower (filepathExt reqCorruptPng.origFilename)
        size := reqCorruptPng.content.length
        converted := false
        message := "File uploaded successfully" } ∧
      fsGet (handleUpload envDecodeFail [] "w1" reqCorruptPng).1
        (uploadPath ("w1" ++ strToLower (filepathExt reqCorruptPng.origFilename))) =
          some reqCorruptPng.content) :=
  ⟨by decide, by decide,
    C1_transcode_fallback envDecodeFail [] "w1" reqCorruptPng
      "failed to decode image: bad data" (by decide) (by decide) rfl rfl rfl
      (by decide)⟩

/-- C3, claim as stated is false: the 0-byte .png upload does fail decode
and the fallback does store 0 bytes verbatim, but the response is the 500
"Save failed" error, not a success with converted_to_webp = false and
size = 0. -/
theorem C3_cex :
    isImageFile (strToLower (filepathExt emptyPngReq.origFilename)) = true ∧
    fsGet (handleUpload envAllOk [] "u3" emptyPngReq).1 (uploadPath "u3.png") =
      some [] ∧
    (handleUpload envAllOk [] "u3" emptyPngReq).2 =
      UploadResult.err 500 "Save failed" "Could not save file" := by
  decide

/-- C3 (corrected): uploading a 0-byte file with extension .png fails
decode, and the fallback path writes the 0 bytes verbatim to
objectId + ".png" (the file is present, empty, on disk) — but because the
written size is zero, handleUpload reports the 500 "Save failed" persist
error instead of a converted_to_webp = false, size = 0 success. -/
theorem C3_empty_png (env : Env) (fs : FS) (id e : String)
    (hdec : env.decode ".png" [] = Except.error e)
    (hc : env.createOk (uploadPath (id ++ ".png")) = true)
    (hk : env.copyOk = true) :
    (convertToWebP env fs [] (uploadPath (id ++ ".webp")) ".png").2 =
      Except.error ("failed to decode image: " ++ e) ∧
    fsGet (handleUpload env fs id emptyPngReq).1 (uploadPath (id ++ ".png")) =
      some [] ∧
    (handleUpload env fs id emptyPngReq).2 =
      UploadResult.err 500 "Save failed" "Could not save file" := by
  have hext : strToLower (filepathExt emptyPngReq.origFilename) = ".png" := by decide
  have hfail : (convertToWebP env fs [] (uploadPath (id ++ ".webp")) ".png").2 =
      Except.error ("failed to decode image: " ++ e) := by
    simp [convertToWebP, hdec]
  have hp : passesEarlyChecks emptyPngReq := by decide
  refine ⟨hfail, ?_, ?_⟩ <;>
  · rw [handleUpload_after_checks env fs id emptyPngReq hp]
    simp only [hext, show emptyPngReq.content = [] from rfl]
    rw [ingestCore_fallback env fs id ".png" [] ("failed to decode image: " ++ e)
      (by decide) hfail hc hk]
    simp [fsGet_fsWrite_self]

/-- Witness for C3 in the fault-free environment, whose decoder rejects
the empty input exactly as png.Decode does. -/
theorem C3_empty_png_witness :
    envAllOk.decode ".png" [] = Except.error "unexpected EOF" ∧
    ((convertToWebP envAllOk [] [] (uploadPath ("w3" ++ ".webp")) ".png").2 =
      Except.error ("failed to decode image: " ++ "unexpected EOF") ∧
     fsGet (handleUpload envAllOk [] "w3" emptyPngReq).1 (uploadPath ("w3" ++ ".png")) =
      some [] ∧
     (handleUpload envAllOk [] "w3" emptyPngReq).2 =
      UploadResult.err 500 "Save failed" "Could not save file") :=
  ⟨rfl, C3_empty_png envAllOk [] "w3" "unexpected EOF" rfl rfl rfl⟩

/-- C4, claim as stated is false: the 0-byte opaque upload, in a
fault-free environment, does not succeed: the verbatim write reports zero
bytes and handleUpload answers 500 "Save failed". -/
theorem C4_cex :
    isImageFile (strToLower (filepathExt reqEmptyTxt.origFilename)) = false ∧
    (handleUpload envAllOk [] "u4" reqEmptyTxt).2 =
      UploadResult.err 500 "Save failed" "Could not save file" := by
  decide

/-- C4 (corrected): every opaque upload that passes the early checks and
whose verbatim write reports a positive byte count (create and copy
succeed, nonempty input) succeeds with wasConverted = false and the
stored bytes at objectId + originalExtension equal the input bytes
exactly (round-trip identity). -/
theorem C4_opaque_roundtrip (env : Env) (fs : FS) (id : String)
    (r : UploadRequest) (hp : passesEarlyChecks r)
    (hop : isImageFile (strToLower (filepathExt r.origFilename)) = false)
    (hc : env.createOk (uploadPath (id ++ strToLower (filepathExt r.origFilename))) = true)
    (hk : env.copyOk = true)
    (hne : r.content ≠ []) :
    (handleUpload env fs id r).2 = UploadResult.created {
        url := BaseURL ++ "/uploads/" ++ (id ++ strToLower (filepathExt r.origFilename))
        filename := id ++ strToLower (filepathExt r.origFilename)
        originalExt := strToLower (filepathExt r.origFilename)
        size := r.content.length
        converted := false
        message := "File uploaded successfully" } ∧
    fsGet (handleUpload env fs id r).1
      (uploadPath (id ++ strToLower (filepathExt r.origFilename))) = some r.content := by
  have hlen : r.content.length ≠ 0 := fun h => hne (List.length_eq_zero.mp h)
  rw [handleUpload_after_checks env fs id r hp]
  simp only [ingestCore_verbatim env fs id (strToLower (filepathExt r.origFilename))
    r.content hop hc hk, hlen, if_neg, fsGet_fsWrite_self]
  exact ⟨rfl, fsGet_fsWrite_self _ _ _⟩

/-- Witness for C4 at a nonempty opaque upload in the fault-free
environment. -/
theorem C4_opaque_roundtrip_witness :
    passesEarlyChecks reqWebpFile ∧
    isImageFile (strToLower (filepathExt reqWebpFile.origFilename)) = false ∧
    ((handleUpload envAllOk [] "w4" reqWebpFile).2 = UploadResult.created {
        url := BaseURL ++ "/uploads/" ++ ("w4" ++ strToLower (filepathExt reqWebpFile.origFilename))
        filename := "w4" ++ strToLower (filepathExt reqWebpFile.origFilename)
        originalExt := strToLower (filepathExt reqWebpFile.origFilename)
        size := reqWebpFile.content.length
        converted := false
        message := "File uploaded successfully" } ∧
      fsGet (handleUpload envAllOk [] "w4" reqWebpFile).1
        (uploadPath ("w4" ++ strToLower (filepathExt reqWebpFile.origFilename))) =
          some reqWebpFile.content) :=
  ⟨by decide, by decide,
    C4_opaque_roundtrip envAllOk [] "w4" reqWebpFile (by decide) (by decide)
      rfl rfl (by decide)⟩

/-- C7 (confirmed): when the webp encoder fails inside the transcoder, or
io.Copy fails inside the blob writer, the partially-written destination
file is removed before the error is surfaced: afterwards no file exists
at the destination path, and the caller sees the encode error
(respectively the zero byte count). -/
theorem C7_cleanup (env : Env) (fs : FS) (src img : Bytes) (p ext e : String)
    (himg : isImageFile ext = true)
    (hdec : env.decode ext src = Except.ok img)
    (hcr : env.createOk p = true)
    (henc : env.encodeWebP img = Except.error e) :
    (convertToWebP env fs src p ext =
      (fsRemove (fsWrite fs p []) p, Except.error ("failed to encode WebP: " ++ e)) ∧
     fsGet (convertToWebP env fs src p ext).1 p = none) ∧
    (env.copyOk = false →
      saveOriginalFile env fs src p = (fsRemove (fsWrite fs p []) p, 0) ∧
      fsGet (saveOriginalFile env fs src p).1 p = none) := by
  have hcv : convertToWebP env fs src p ext =
      (fsRemove (fsWrite fs p []) p, Except.error ("failed to encode WebP: " ++ e)) := by
    have hor := (isImageFile_iff ext).mp himg
    simp [convertToWebP, hor, hdec, hcr, henc]
  refine ⟨⟨hcv, ?_⟩, fun hkf => ?_⟩
  · rw [hcv]; exact fsGet_fsRemove_self _ _
  · have hsv : saveOriginalFile env fs src p = (fsRemove (fsWrite fs p []) p, 0) := by
      simp [saveOriginalFile, hcr, hkf]
    exact ⟨hsv, by rw [hsv]; exact fsGet_fsRemove_self _ _⟩

/-- Witness for C7 in an environment where decode and create succeed but
the webp encoder and io.Copy fail, over a filesystem already holding an
unrelated file. -/
theorem C7_cleanup_witness :
    envEncodeFail.encodeWebP [5] = Except.error "webp boom" ∧
    envEncodeFail.copyOk = false ∧
    ((convertToWebP envEncodeFail [("uploads/old.txt", [9])] [5]
        "uploads/w7.webp" ".gif" =
      (fsRemove (fsWrite [("uploads/old.txt", [9])] "uploads/w7.webp" [])
          "uploads/w7.webp",
        Except.error ("failed to encode WebP: " ++ "webp boom")) ∧
      fsGet (convertToWebP envEncodeFail [("uploads/old.txt", [9])] [5]
        "uploads/w7.webp" ".gif").1 "uploads/w7.webp" = none) ∧
    (envEncodeFail.copyOk = false →
      saveOriginalFile envEncodeFail [("uploads/old.txt", [9])] [5]
          "uploads/w7.webp" =
        (fsRemove (fsWrite [("uploads/old.txt", [9])] "uploads/w7.webp" [])
          "uploads/w7.webp", 0) ∧
      fsGet (saveOriginalFile envEncodeFail [("uploads/old.txt", [9])] [5]
        "uploads/w7.webp").1 "uploads/w7.webp" = none)) :=
  ⟨rfl, rfl,
    C7_cleanup envEncodeFail [("uploads/old.txt", [9])] [5] [5]
      "uploads/w7.webp" ".gif" "webp boom" (by decide) rfl rfl rfl⟩

/-- The filename ingestCore reports is id ++ ".webp" exactly on the
converted branch, and id ++ originalExt on the non-converted branches;
a converted result moreover implies the extension was convertible. -/
theorem ingestCore_filename (env : Env) (fs : FS) (id ext : String)
    (content : Bytes) :
    ((ingestCore env fs id ext content).2.2.1 = true →
      (ingestCore env fs id ext content).2.1 = id ++ ".webp" ∧
        isImageFile ext = true) ∧
    ((ingestCore env fs id ext content).2.2.1 = false →
      (ingestCore env fs id ext content).2.1 = id ++ ext) := by
  unfold ingestCore
  by_cases himg : isImageFile ext = true
  · simp only [ConvertToWebP, himg, Bool.and_self, if_pos]
    cases hc : (convertToWebP env fs content (uploadPath (id ++ ".webp")) ext).2 with
    | ok n => simp [himg]
    | error e => simp
  · simp [ConvertToWebP, himg]

/-- Left-cancellation of string append. -/
theorem strAppend_cancel_left (a b c : String) (h : a ++ b = a ++ c) : b = c := by
  apply String.ext
  have hd := congrArg String.data h
  rw [strData_append, strData_append] at hd
  exact List.append_cancel_left hd

/-- C10, claim as stated is false: a successful upload of a nonempty file
whose original extension is already .webp (opaque, so never converted)
stores it under objectId + ".webp" while reporting
converted_to_webp = false, so "converted = true iff the stored filename
is objectId + .webp" fails in the right-to-left direction. -/
theorem C10_cex :
    (handleUpload envAllOk [] "u10" reqWebpFile).2 = UploadResult.created
      { url := "http://localhost:4000/uploads/u10.webp", filename := "u10" ++ ".webp",
        originalExt := ".webp", size := 3, converted := false,
        message := "File uploaded successfully" } := by
  decide

/-- C10 (corrected): every successful upload response satisfies
converted = true implies filename = objectId + ".webp";
converted = false if and only if filename = objectId + lower-cased
original extension; and whenever the original extension is not itself
".webp", the claimed biconditional holds: converted = true iff
filename = objectId + ".webp". -/
theorem C10_flag_vs_filename (env : Env) (fs : FS) (id : String)
    (r : UploadRequest) (fs1 : FS) (resp : UploadResponse)
    (h : handleUpload env fs id r = (fs1, UploadResult.created resp)) :
    (resp.converted = true → resp.filename = id ++ ".webp") ∧
    (resp.converted = false ↔ resp.filename = id ++ resp.originalExt) ∧
    (resp.originalExt ≠ ".webp" →
      (resp.converted = true ↔ resp.filename = id ++ ".webp")) := by
  unfold handleUpload at h
  by_cases h1 : r.method ≠ "POST"
  · simp [h1] at h
  by_cases h2 : r.bodySize > maxRequestSize
  · simp [h1, h2] at h
  by_cases h3 : r.formValid = false
  · simp [h1, h2, h3] at h
  by_cases h4 : r.hasFile = false
  · simp [h1, h2, h3, h4] at h
  by_cases h5 : r.content.length > MaxFileSize
  · simp [h1, h2, h3, h4, h5] at h
  simp only [h1, h2, h3, h4, h5, if_false, if_neg, not_false_eq_true,
    Bool.true_eq_false] at h
  set ext := strToLower (filepathExt r.origFilename) with hext
  by_cases h6 : (ingestCore env fs id ext r.content).2.2.2 = 0
  · simp [h6] at h
  · simp only [h6, if_neg, not_false_eq_true, Prod.mk.injEq,
      UploadResult.created.injEq] at h
    obtain ⟨-, hresp⟩ := h
    have hfile := ingestCore_filename env fs id ext r.content
    subst hresp
    dsimp only
    refine ⟨fun hcv => (hfile.1 hcv).1, ⟨fun hcv => hfile.2 hcv, fun hfn => ?_⟩,
      fun hwe => ⟨fun hcv => (hfile.1 hcv).1, fun hfn => ?_⟩⟩
    · by_contra hcv
      rw [Bool.not_eq_false] at hcv
      have h1f := (hfile.1 hcv).1
      have h2f := (isImageFile_iff ext).mp (hfile.1 hcv).2
      have hwebp : ext = ".webp" :=
        (strAppend_cancel_left id _ _ (h1f.symm.trans hfn)).symm
      rcases h2f with h | h | h | h <;> rw [hwebp] at h <;> exact absurd h (by decide)
    · by_contra hcv
      rw [Bool.not_eq_true] at hcv
      have hf2 := hfile.2 hcv
      exact hwe (strAppend_cancel_left id _ _ (hf2.symm.trans hfn))

/-- A successful converted upload of a .jpg file, used by the C10 witness:
the request, the resulting filesystem, and the resulting response. -/
def reqJpg : UploadRequest :=
  { method := "POST", bodySize := 1, formValid := true, hasFile := true,
    origFilename := "pic.jpg", content := [5] }

def fsAfterJpg : FS := [("uploads/w10.webp", [5])]

def respJpg : UploadResponse :=
  { url := "http://localhost:4000/uploads/w10.webp", filename := "w10.webp",
    originalExt := ".jpg", size := 1, converted := true,
    message := "File uploaded successfully" }

/-- Witness for C10 at a successful converted upload of a .jpg file. -/
theorem C10_flag_vs_filename_witness :
    handleUpload envAllOk [] "w10" reqJpg = (fsAfterJpg, UploadResult.created respJpg) ∧
    ((respJpg.converted = true → respJpg.filename = "w10" ++ ".webp") ∧
     (respJpg.converted = false ↔ respJpg.filename = "w10" ++ respJpg.originalExt) ∧
     (respJpg.originalExt ≠ ".webp" →
       (respJpg.converted = true ↔ respJpg.filename = "w10" ++ ".webp"))) :=
  ⟨by decide,
    C10_flag_vs_filename envAllOk [] "w10" reqJpg fsAfterJpg respJpg (by decide)⟩

end LFS
